import Mathlib

/-!
Verification of the configuration resolver of `shinwa_agent`
(`src/backend/src/shinwa_agent/config/settings.py`).

The module declares a pydantic `BaseSettings` subclass `Settings` with
sixteen fields and `model_config = SettingsConfigDict(env_file=".env",
env_file_encoding="utf-8", case_sensitive=False, extra="ignore")`,
plus a lazily-initialised module-level singleton `_settings` managed by
`get_settings()` and `reload_settings()`.

The embedding below models:
  * environments (the live process environment, the parsed environment
    file, and the process environment as it was at class-definition time,
    which feeds the `os.getenv` default expressions of `openai_api_key`
    and `openai_base_url`) as association lists `List (String × String)`;
    an absent environment file is the empty list;
  * pydantic-settings field resolution with source precedence
    live environment > environment file > field default, case-insensitive
    key matching (field names are lowercase), `extra="ignore"`, and lax
    type coercion of string inputs to the declared field types;
  * the singleton lifecycle as explicit state passing: the state carries
    the cached instance, an allocation log of every instance ever
    constructed (so that object identity and immutability are
    expressible), and a fresh-identity counter.
-/

namespace ShinwaAgent

instance {ε α : Type} [DecidableEq ε] [DecidableEq α] : DecidableEq (Except ε α) :=
  fun x y =>
    match x, y with
    | .ok a, .ok b =>
      if h : a = b then .isTrue (by rw [h]) else .isFalse (by simp [h])
    | .error e, .error f =>
      if h : e = f then .isTrue (by rw [h]) else .isFalse (by simp [h])
    | .ok _, .error _ => .isFalse (by simp)
    | .error _, .ok _ => .isFalse (by simp)

/-- The single error kind of the component: an input value that cannot be
coerced to its field's declared type (pydantic `ValidationError`). -/
inductive ConfigValidationError where
  | validationError (field : String) (value : String)
deriving DecidableEq, Repr

/-- Python `os.getenv(name, dflt)`: exact-case lookup in the process
environment, returning `dflt` when the variable is unset. -/
def osGetenv (env : List (String × String)) (name : String) (dflt : String) : String :=
  ((env.find? (fun p => p.1 == name)).map (fun p => p.2)).getD dflt

/-- Python `str.lower()`, character by character (the env-var names this
component handles are ASCII). -/
def toLowerStr (s : String) : String :=
  String.mk (s.data.map Char.toLower)

/-- Case-insensitive lookup of a (lowercase) field name `key` in an
environment, as performed by pydantic-settings with
`case_sensitive=False`. -/
def lookupCI (key : String) (env : List (String × String)) : Option String :=
  (env.find? (fun p => toLowerStr p.1 == key)).map (fun p => p.2)

/-- Whitespace as stripped by Python around numeric/boolean input. -/
def isPySpace (c : Char) : Bool :=
  c = ' ' || c = '\t' || c = '\n' || c = '\r'

/-- Python `str.strip()` on a character list. -/
def trimChars (l : List Char) : List Char :=
  ((l.dropWhile isPySpace).reverse.dropWhile isPySpace).reverse

/-- The value of a non-empty all-digit character sequence. -/
def digitsVal (l : List Char) : Option Nat :=
  if l = [] then none
  else
    l.foldl
      (fun acc c =>
        match acc with
        | some n => if c.isDigit then some (n * 10 + (c.toNat - 48)) else none
        | none => none)
      (some 0)

/-- Lax coercion of a string input to a Python `int`
(pydantic accepts an optionally signed decimal literal, surrounding
whitespace allowed). -/
def parsePyInt (s : String) : Option Int :=
  match trimChars s.data with
  | '-' :: rest => (digitsVal rest).map (fun n => -(n : Int))
  | '+' :: rest => (digitsVal rest).map (fun n => (n : Int))
  | l => (digitsVal l).map (fun n => (n : Int))

/-- Lax coercion of a string input to a Python `bool`
(pydantic accepts the usual truthy/falsy spellings, case-insensitively). -/
def parsePyBool (s : String) : Option Bool :=
  let t := String.mk ((trimChars s.data).map Char.toLower)
  if t ∈ ["true", "t", "yes", "y", "on", "1"] then some true
  else if t ∈ ["false", "f", "no", "n", "off", "0"] then some false
  else none

/-- One element of a JSON string array: a double-quoted string.
Modelled for escape-free content, which covers every value this
component is exercised with. -/
def parseJsonStr (s : String) : Option String :=
  match trimChars s.data with
  | '"' :: rest =>
    let inner := rest.dropLast
    if rest.getLast? = some '"' ∧ ¬ inner.contains '"' ∧ ¬ inner.contains '\\' then
      some (String.mk inner)
    else none
  | _ => none

/-- Split a character list at every occurrence of `sep`. -/
def splitChars (sep : Char) (l : List Char) : List (List Char) :=
  let p := l.foldr
    (fun c (acc : List Char × List (List Char)) =>
      if c = sep then ([], acc.1 :: acc.2) else (c :: acc.1, acc.2))
    ([], [])
  p.1 :: p.2

/-- pydantic-settings decodes complex field values (here `List[str]`)
from environment input as JSON arrays. -/
def parseStrList (s : String) : Option (List String) :=
  match trimChars s.data with
  | '[' :: rest =>
    if rest.getLast? = some ']' then
      let inner := rest.dropLast
      if trimChars inner = [] then some []
      else ((splitChars ',' inner).map String.mk).mapM parseJsonStr
    else none
  | _ => none

/-- pydantic-settings decodes `List[int]` field values from environment
input as JSON arrays of integers. -/
def parseIntList (s : String) : Option (List Int) :=
  match trimChars s.data with
  | '[' :: rest =>
    if rest.getLast? = some ']' then
      let inner := rest.dropLast
      if trimChars inner = [] then some []
      else ((splitChars ',' inner).map String.mk).mapM parsePyInt
    else none
  | _ => none

/-- Resolution of a string-typed field: live environment first, then the
environment file, then the built-in default.  String fields never fail
coercion. -/
def resolveStr (key : String) (dflt : String)
    (file live : List (String × String)) : String :=
  match lookupCI key live with
  | some v => v
  | none =>
    match lookupCI key file with
    | some v => v
    | none => dflt

/-- Resolution of a typed field: live environment first, then the
environment file, then the built-in default; a found value that fails
coercion is a validation error. -/
def resolveParsed {α : Type} (parse : String → Option α) (key : String) (dflt : α)
    (file live : List (String × String)) : Except ConfigValidationError α :=
  match lookupCI key live with
  | some v =>
    match parse v with
    | some a => .ok a
    | none => .error (.validationError key v)
  | none =>
    match lookupCI key file with
    | some v =>
      match parse v with
      | some a => .ok a
      | none => .error (.validationError key v)
    | none => .ok dflt

/-- The `Settings` record, one field per pydantic field of the source
class, in source order. -/
structure Settings where
  api_host : String
  api_port : Int
  cors_origins : List String
  database_url : String
  redis_url : String
  openai_api_key : String
  openai_base_url : String
  openai_model : String
  secret_key : String
  sandbox_root : String
  proactive_mode : String
  max_frequency_per_hour : Int
  cooldown_minutes : Int
  dnd_hours : List Int
  log_level : String
  structured_logging : Bool
deriving DecidableEq, Repr

/-- The documented built-in defaults, written down from the spec's field
table (§3) with the two environment-derived fields at their "else empty"
value, for comparison with what `buildSettings` produces. -/
def specDefaults : Settings :=
  ⟨"0.0.0.0", 8000, ["http://localhost:3000", "http://127.0.0.1:3000"],
   "sqlite:///./shinwa_agent.db", "redis://localhost:6379/0", "", "",
   "gpt-4.1-mini", "dev-secret-key-change-in-production", "/workspace",
   "reactive", 3, 15, [22, 23, 0, 1, 2, 3, 4, 5, 6], "INFO", true⟩

/-- The lowercase names of the known `Settings` fields, in source order. -/
def fieldNames : List String :=
  ["api_host", "api_port", "cors_origins", "database_url", "redis_url",
   "openai_api_key", "openai_base_url", "openai_model", "secret_key",
   "sandbox_root", "proactive_mode", "max_frequency_per_hour",
   "cooldown_minutes", "dnd_hours", "log_level", "structured_logging"]

def res_api_host (file live : List (String × String)) : String :=
  resolveStr "api_host" "0.0.0.0" file live

def res_api_port (file live : List (String × String)) :
    Except ConfigValidationError Int :=
  resolveParsed parsePyInt "api_port" 8000 file live

def res_cors_origins (file live : List (String × String)) :
    Except ConfigValidationError (List String) :=
  resolveParsed parseStrList "cors_origins"
    ["http://localhost:3000", "http://127.0.0.1:3000"] file live

def res_database_url (file live : List (String × String)) : String :=
  resolveStr "database_url" "sqlite:///./shinwa_agent.db" file live

def res_redis_url (file live : List (String × String)) : String :=
  resolveStr "redis_url" "redis://localhost:6379/0" file live

/-- `openai_api_key: str = os.getenv("OPENAI_API_KEY", "")`: the default
is read from the process environment at class-definition time
(`classDefEnv`), independent of the environment-file mechanism. -/
def res_openai_api_key (classDefEnv file live : List (String × String)) : String :=
  resolveStr "openai_api_key" (osGetenv classDefEnv "OPENAI_API_KEY" "") file live

/-- `openai_base_url: str = os.getenv("OPENAI_BASE_URL", "")`: the default
is read from the process environment at class-definition time. -/
def res_openai_base_url (classDefEnv file live : List (String × String)) : String :=
  resolveStr "openai_base_url" (osGetenv classDefEnv "OPENAI_BASE_URL" "") file live

def res_openai_model (file live : List (String × String)) : String :=
  resolveStr "openai_model" "gpt-4.1-mini" file live

def res_secret_key (file live : List (String × String)) : String :=
  resolveStr "secret_key" "dev-secret-key-change-in-production" file live

def res_sandbox_root (file live : List (String × String)) : String :=
  resolveStr "sandbox_root" "/workspace" file live

def res_proactive_mode (file live : List (String × String)) : String :=
  resolveStr "proactive_mode" "reactive" file live

def res_max_frequency_per_hour (file live : List (String × String)) :
    Except ConfigValidationError Int :=
  resolveParsed parsePyInt "max_frequency_per_hour" 3 file live

def res_cooldown_minutes (file live : List (String × String)) :
    Except ConfigValidationError Int :=
  resolveParsed parsePyInt "cooldown_minutes" 15 file live

def res_dnd_hours (file live : List (String × String)) :
    Except ConfigValidationError (List Int) :=
  resolveParsed parseIntList "dnd_hours" [22, 23, 0, 1, 2, 3, 4, 5, 6] file live

def res_log_level (file live : List (String × String)) : String :=
  resolveStr "log_level" "INFO" file live

def res_structured_logging (file live : List (String × String)) :
    Except ConfigValidationError Bool :=
  resolveParsed parsePyBool "structured_logging" true file live

/-- `Settings()` construction: resolve every field from the three input
sources; any coercion failure fails the whole construction with a
validation error. -/
def buildSettings (classDefEnv file live : List (String × String)) :
    Except ConfigValidationError Settings :=
  match res_api_port file live, res_cors_origins file live,
        res_max_frequency_per_hour file live, res_cooldown_minutes file live,
        res_dnd_hours file live, res_structured_logging file live with
  | .ok api_port, .ok cors_origins, .ok max_frequency_per_hour,
    .ok cooldown_minutes, .ok dnd_hours, .ok structured_logging =>
    .ok { api_host := res_api_host file live
          api_port := api_port
          cors_origins := cors_origins
          database_url := res_database_url file live
          redis_url := res_redis_url file live
          openai_api_key := res_openai_api_key classDefEnv file live
          openai_base_url := res_openai_base_url classDefEnv file live
          openai_model := res_openai_model file live
          secret_key := res_secret_key file live
          sandbox_root := res_sandbox_root file live
          proactive_mode := res_proactive_mode file live
          max_frequency_per_hour := max_frequency_per_hour
          cooldown_minutes := cooldown_minutes
          dnd_hours := dnd_hours
          log_level := res_log_level file live
          structured_logging := structured_logging }
  | .error e, _, _, _, _, _ => .error e
  | _, .error e, _, _, _, _ => .error e
  | _, _, .error e, _, _, _ => .error e
  | _, _, _, .error e, _, _ => .error e
  | _, _, _, _, .error e, _ => .error e
  | _, _, _, _, _, .error e => .error e

/-- An instance is a constructed `Settings` value paired with its
allocation identity (modelling Python object identity). -/
abbrev Instance := Nat × Settings

/-- The module-level singleton state: the cached instance `_settings`
(`none` models Python `None`), the log of every instance constructed so
far, and the next fresh identity. -/
structure SettingsCache where
  cache : Option Instance
  heap : List Instance
  nextId : Nat
deriving DecidableEq, Repr

/-- The state at module import: `_settings: Settings | None = None`. -/
def initCache : SettingsCache := ⟨none, [], 0⟩

/-- The value of an already-constructed instance, looked up by identity. -/
def heapGet (st : SettingsCache) (i : Nat) : Option Settings :=
  (st.heap.find? (fun p => p.1 == i)).map (fun p => p.2)

/--
`get_settings()`: return the cached instance if one exists; otherwise
construct one, cache it and return it.  A construction failure propagates
and leaves the state unchanged (in Python the assignment
`_settings = Settings()` never happens when `Settings()` raises).
-/
def get_settings (classDefEnv file live : List (String × String))
    (st : SettingsCache) :
    Except ConfigValidationError Instance × SettingsCache :=
  match st.cache with
  | some inst => (.ok inst, st)
  | none =>
    match buildSettings classDefEnv file live with
    | .ok s =>
      (.ok (st.nextId, s),
       ⟨some (st.nextId, s), (st.nextId, s) :: st.heap, st.nextId + 1⟩)
    | .error e => (.error e, st)

/--
`reload_settings()`: unconditionally construct a new instance, replace
the cached one and return it.  A construction failure propagates and
leaves the state unchanged.
-/
def reload_settings (classDefEnv file live : List (String × String))
    (st : SettingsCache) :
    Except ConfigValidationError Instance × SettingsCache :=
  match buildSettings classDefEnv file live with
  | .ok s =>
    (.ok (st.nextId, s),
     ⟨some (st.nextId, s), (st.nextId, s) :: st.heap, st.nextId + 1⟩)
  | .error e => (.error e, st)

/-- The tuple of every field except the two whose defaults come from the
class-definition-time environment (`openai_api_key`, `openai_base_url`). -/
def nonOpenaiView (s : Settings) :
    String × Int × List String × String × String × String × String × String ×
    String × Int × Int × List Int × String × Bool :=
  (s.api_host, s.api_port, s.cors_origins, s.database_url, s.redis_url,
   s.openai_model, s.secret_key, s.sandbox_root, s.proactive_mode,
   s.max_frequency_per_hour, s.cooldown_minutes, s.dnd_hours, s.log_level,
   s.structured_logging)

lemma lookupCI_cons_of_ne (key k v : String) (env : List (String × String))
    (h : toLowerStr k ≠ key) :
    lookupCI key ((k, v) :: env) = lookupCI key env := by
  unfold lookupCI
  rw [List.find?_cons_of_neg]
  simpa using h

lemma osGetenv_cons_of_ne (name k v dflt : String) (env : List (String × String))
    (h : k ≠ name) :
    osGetenv ((k, v) :: env) name dflt = osGetenv env name dflt := by
  unfold osGetenv
  rw [List.find?_cons_of_neg]
  simpa using h

lemma resolveStr_live (key dflt : String) (file live : List (String × String))
    (v : String) (h : lookupCI key live = some v) :
    resolveStr key dflt file live = v := by
  unfold resolveStr
  rw [h]

lemma resolveStr_file (key dflt : String) (file live : List (String × String))
    (v : String) (hl : lookupCI key live = none) (hf : lookupCI key file = some v) :
    resolveStr key dflt file live = v := by
  unfold resolveStr
  rw [hl, hf]

lemma resolveStr_default (key dflt : String) (file live : List (String × String))
    (hl : lookupCI key live = none) (hf : lookupCI key file = none) :
    resolveStr key dflt file live = dflt := by
  unfold resolveStr
  rw [hl, hf]

lemma resolveParsed_live {α : Type} (parse : String → Option α) (key : String)
    (dflt : α) (file live : List (String × String)) (v : String) (a : α)
    (hl : lookupCI key live = some v) (hp : parse v = some a) :
    resolveParsed parse key dflt file live = .ok a := by
  unfold resolveParsed
  rw [hl]
  simp [hp]

lemma resolveParsed_file {α : Type} (parse : String → Option α) (key : String)
    (dflt : α) (file live : List (String × String)) (v : String) (a : α)
    (hl : lookupCI key live = none) (hf : lookupCI key file = some v)
    (hp : parse v = some a) :
    resolveParsed parse key dflt file live = .ok a := by
  unfold resolveParsed
  rw [hl, hf]
  simp [hp]

lemma resolveStr_congr (key dflt : String)
    (file file' live live' : List (String × String))
    (hf : lookupCI key file' = lookupCI key file)
    (hl : lookupCI key live' = lookupCI key live) :
    resolveStr key dflt file' live' = resolveStr key dflt file live := by
  unfold resolveStr
  rw [hf, hl]

lemma resolveParsed_congr {α : Type} (parse : String → Option α) (key : String)
    (dflt : α) (file file' live live' : List (String × String))
    (hf : lookupCI key file' = lookupCI key file)
    (hl : lookupCI key live' = lookupCI key live) :
    resolveParsed parse key dflt file' live' = resolveParsed parse key dflt file live := by
  unfold resolveParsed
  rw [hf, hl]

/-- Inversion of a successful construction: every field of the result is
the value of that field's resolver. -/
lemma buildSettings_ok_fields (classDefEnv file live : List (String × String))
    (s : Settings) (h : buildSettings classDefEnv file live = .ok s) :
    s.api_host = res_api_host file live ∧
    res_api_port file live = .ok s.api_port ∧
    res_cors_origins file live = .ok s.cors_origins ∧
    s.database_url = res_database_url file live ∧
    s.redis_url = res_redis_url file live ∧
    s.openai_api_key = res_openai_api_key classDefEnv file live ∧
    s.openai_base_url = res_openai_base_url classDefEnv file live ∧
    s.openai_model = res_openai_model file live ∧
    s.secret_key = res_secret_key file live ∧
    s.sandbox_root = res_sandbox_root file live ∧
    s.proactive_mode = res_proactive_mode file live ∧
    res_max_frequency_per_hour file live = .ok s.max_frequency_per_hour ∧
    res_cooldown_minutes file live = .ok s.cooldown_minutes ∧
    res_dnd_hours file live = .ok s.dnd_hours ∧
    s.log_level = res_log_level file live ∧
    res_structured_logging file live = .ok s.structured_logging := by
  unfold buildSettings at h
  split at h <;> cases h <;> simp_all

/-- Construction only looks at the inputs through the per-field lookups:
inputs that agree on every known field name (and, for the
class-definition-time environment, on the two `OPENAI_*` variables)
produce the same result. -/
lemma buildSettings_env_congr
    (classDefEnv classDefEnv' file file' live live' : List (String × String))
    (hcde : ∀ n, n = "OPENAI_API_KEY" ∨ n = "OPENAI_BASE_URL" →
      osGetenv classDefEnv' n "" = osGetenv classDefEnv n "")
    (hfile : ∀ key ∈ fieldNames, lookupCI key file' = lookupCI key file)
    (hlive : ∀ key ∈ fieldNames, lookupCI key live' = lookupCI key live) :
    buildSettings classDefEnv' file' live' = buildSettings classDefEnv file live := by
  have e_port : res_api_port file' live' = res_api_port file live := by
    unfold res_api_port
    exact resolveParsed_congr _ _ _ _ _ _ _
      (hfile _ (by decide)) (hlive _ (by decide))
  have e_cors : res_cors_origins file' live' = res_cors_origins file live := by
    unfold res_cors_origins
    exact resolveParsed_congr _ _ _ _ _ _ _
      (hfile _ (by decide)) (hlive _ (by decide))
  have e_max : res_max_frequency_per_hour file' live'
      = res_max_frequency_per_hour file live := by
    unfold res_max_frequency_per_hour
    exact resolveParsed_congr _ _ _ _ _ _ _
      (hfile _ (by decide)) (hlive _ (by decide))
  have e_cool : res_cooldown_minutes file' live' = res_cooldown_minutes file live := by
    unfold res_cooldown_minutes
    exact resolveParsed_congr _ _ _ _ _ _ _
      (hfile _ (by decide)) (hlive _ (by decide))
  have e_dnd : res_dnd_hours file' live' = res_dnd_hours file live := by
    unfold res_dnd_hours
    exact resolveParsed_congr _ _ _ _ _ _ _
      (hfile _ (by decide)) (hlive _ (by decide))
  have e_slog : res_structured_logging file' live'
      = res_structured_logging file live := by
    unfold res_structured_logging
    exact resolveParsed_congr _ _ _ _ _ _ _
      (hfile _ (by decide)) (hlive _ (by decide))
  have e_host : res_api_host file' live' = res_api_host file live := by
    unfold res_api_host
    exact resolveStr_congr _ _ _ _ _ _ (hfile _ (by decide)) (hlive _ (by decide))
  have e_db : res_database_url file' live' = res_database_url file live := by
    unfold res_database_url
    exact resolveStr_congr _ _ _ _ _ _ (hfile _ (by decide)) (hlive _ (by decide))
  have e_redis : res_redis_url file' live' = res_redis_url file live := by
    unfold res_redis_url
    exact resolveStr_congr _ _ _ _ _ _ (hfile _ (by decide)) (hlive _ (by decide))
  have e_key : res_openai_api_key classDefEnv' file' live'
      = res_openai_api_key classDefEnv file live := by
    unfold res_openai_api_key
    rw [hcde _ (Or.inl rfl)]
    exact resolveStr_congr _ _ _ _ _ _ (hfile _ (by decide)) (hlive _ (by decide))
  have e_url : res_openai_base_url classDefEnv' file' live'
      = res_openai_base_url classDefEnv file live := by
    unfold res_openai_base_url
    rw [hcde _ (Or.inr rfl)]
    exact resolveStr_congr _ _ _ _ _ _ (hfile _ (by decide)) (hlive _ (by decide))
  have e_model : res_openai_model file' live' = res_openai_model file live := by
    unfold res_openai_model
    exact resolveStr_congr _ _ _ _ _ _ (hfile _ (by decide)) (hlive _ (by decide))
  have e_secret : res_secret_key file' live' = res_secret_key file live := by
    unfold res_secret_key
    exact resolveStr_congr _ _ _ _ _ _ (hfile _ (by decide)) (hlive _ (by decide))
  have e_sandbox : res_sandbox_root file' live' = res_sandbox_root file live := by
    unfold res_sandbox_root
    exact resolveStr_congr _ _ _ _ _ _ (hfile _ (by decide)) (hlive _ (by decide))
  have e_proact : res_proactive_mode file' live' = res_proactive_mode file live := by
    unfold res_proactive_mode
    exact resolveStr_congr _ _ _ _ _ _ (hfile _ (by decide)) (hlive _ (by decide))
  have e_log : res_log_level file' live' = res_log_level file live := by
    unfold res_log_level
    exact resolveStr_congr _ _ _ _ _ _ (hfile _ (by decide)) (hlive _ (by decide))
  unfold buildSettings
  rw [e_port, e_cors, e_max, e_cool, e_dnd, e_slog]
  cases res_api_port file live <;> cases res_cors_origins file live <;>
    cases res_max_frequency_per_hour file live <;>
    cases res_cooldown_minutes file live <;> cases res_dnd_hours file live <;>
    cases res_structured_logging file live <;>
    simp [e_host, e_db, e_redis, e_key, e_url, e_model, e_secret, e_sandbox,
          e_proact, e_log]

lemma heapGet_cons_self (c : Option Instance) (h : List Instance) (n i : Nat)
    (s : Settings) : heapGet ⟨c, (i, s) :: h, n⟩ i = some s := by
  unfold heapGet
  rw [List.find?_cons_of_pos]
  · rfl
  · simp

lemma heapGet_cons_of_ne (c c' : Option Instance) (h : List Instance)
    (n n' i j : Nat) (s : Settings) (hne : j ≠ i) :
    heapGet ⟨c, (j, s) :: h, n⟩ i = heapGet ⟨c', h, n'⟩ i := by
  unfold heapGet
  rw [List.find?_cons_of_neg]
  simpa using hne

/-- C1: resolution precedence is defaults < environment file < live
environment.  A string field found in the live environment resolves to the
live value whatever the file says; a live `API_PORT` that coerces to an
integer `n` forces `api_port = n` in any successful construction; and
setting `API_PORT=9001` before the first call yields
`get_settings().api_port == 9001`. -/
theorem env_wins_over_file :
    (∀ (key dflt : String) (file live : List (String × String)) (v : String),
      lookupCI key live = some v → resolveStr key dflt file live = v) ∧
    (∀ (classDefEnv file live : List (String × String)) (s : Settings)
      (v : String) (n : Int),
      lookupCI "api_port" live = some v → parsePyInt v = some n →
      buildSettings classDefEnv file live = .ok s → s.api_port = n) ∧
    ((get_settings [] [] [("API_PORT", "9001")] initCache).1.map
      (fun p => p.2.api_port) = .ok 9001) := by
  refine ⟨resolveStr_live, ?_, by rfl⟩
  intro classDefEnv file live s v n hl hp hb
  have h := (buildSettings_ok_fields classDefEnv file live s hb).2.1
  unfold res_api_port at h
  rw [resolveParsed_live parsePyInt "api_port" 8000 file live v n hl hp] at h
  simpa using h.symm

/-- Witness for C1 at a concrete input: a live `API_HOST` overrides a file
value, and `API_PORT=9001` in the live environment with `api_port=1` in
the file resolves to 9001. -/
theorem env_wins_over_file_witness :
    resolveStr "api_host" "0.0.0.0" [("api_host", "filehost")]
      [("API_HOST", "livehost")] = "livehost" ∧
    ({ specDefaults with api_port := 9001 } : Settings).api_port = 9001 :=
  ⟨env_wins_over_file.1 "api_host" "0.0.0.0" [("api_host", "filehost")]
      [("API_HOST", "livehost")] "livehost" (by rfl),
   env_wins_over_file.2.1 [] [("api_port", "1")] [("API_PORT", "9001")]
      { specDefaults with api_port := 9001 } "9001" 9001 (by rfl) (by rfl) (by rfl)⟩

/-- C2: with no matching environment variables and no environment file,
every field of the constructed `Settings` equals its documented built-in
default; in particular `get_settings().api_port == 8000` and
`get_settings().cors_origins` is the two-localhost-origins list. -/
theorem defaults_when_unset :
    buildSettings [] [] [] = .ok specDefaults ∧
    (get_settings [] [] [] initCache).1.map (fun p => p.2.api_port) = .ok 8000 ∧
    (get_settings [] [] [] initCache).1.map (fun p => p.2.cors_origins)
      = .ok ["http://localhost:3000", "http://127.0.0.1:3000"] :=
  ⟨rfl, rfl, rfl⟩

/-- C3: once a `get_settings()` call has returned an instance, a second
call without an intervening reload returns the very same instance and
leaves the state untouched (so it performs no construction), whatever the
environment inputs of the second call are. -/
theorem get_settings_cached (cde1 f1 l1 cde2 f2 l2 : List (String × String))
    (st st' : SettingsCache) (inst : Instance)
    (h : get_settings cde1 f1 l1 st = (.ok inst, st')) :
    get_settings cde2 f2 l2 st' = (.ok inst, st') := by
  unfold get_settings at h ⊢
  split at h
  · simp_all
  · split at h
    · rename_i s hbs
      rw [Prod.mk.injEq] at h
      obtain ⟨h1, h2⟩ := h
      subst h2
      have h3 : (st.nextId, s) = inst := by simpa using h1
      subst h3
      rfl
    · rw [Prod.mk.injEq] at h
      exact absurd h.1 (by simp)

/-- Witness for C3 at a concrete input: after a first call that cached an
instance with `api_port = 9001`, a second call under a changed (empty)
environment returns the same instance and state. -/
theorem get_settings_cached_witness :
    get_settings [] [] []
      (⟨some (0, { specDefaults with api_port := 9001 }),
        [(0, { specDefaults with api_port := 9001 })], 1⟩ : SettingsCache)
      = (.ok (0, { specDefaults with api_port := 9001 }),
         ⟨some (0, { specDefaults with api_port := 9001 }),
          [(0, { specDefaults with api_port := 9001 })], 1⟩) :=
  get_settings_cached [] [] [("API_PORT", "9001")] [] [] [] initCache
    ⟨some (0, { specDefaults with api_port := 9001 }),
     [(0, { specDefaults with api_port := 9001 })], 1⟩
    (0, { specDefaults with api_port := 9001 }) (by rfl)

/-- C4: `reload_settings()` constructs a new instance reflecting the
inputs at call time (a distinct instance from the cached one), replaces
the cached instance with it, and subsequent `get_settings()` calls return
that new instance. -/
theorem reload_settings_fresh (cde f l : List (String × String))
    (st : SettingsCache) (v : Settings) (inst0 : Instance)
    (hb : buildSettings cde f l = .ok v) (hc : st.cache = some inst0)
    (hi : inst0.1 < st.nextId) :
    (reload_settings cde f l st).1 = .ok (st.nextId, v) ∧
    st.nextId ≠ inst0.1 ∧
    (reload_settings cde f l st).2.cache = some (st.nextId, v) ∧
    heapGet (reload_settings cde f l st).2 st.nextId = some v ∧
    (∀ cde2 f2 l2, get_settings cde2 f2 l2 (reload_settings cde f l st).2
      = (.ok (st.nextId, v), (reload_settings cde f l st).2)) := by
  unfold reload_settings
  rw [hb]
  refine ⟨rfl, (Nat.ne_of_lt hi).symm, rfl, heapGet_cons_self _ _ _ _ _, ?_⟩
  intro cde2 f2 l2
  rfl

/-- Witness for C4 at a concrete input: reloading with `API_PORT=9001`
over a cache that holds the default instance yields a fresh instance with
identity 1 carrying `api_port = 9001`. -/
theorem reload_settings_fresh_witness :
    (reload_settings [] [] [("API_PORT", "9001")]
       (⟨some (0, specDefaults), [(0, specDefaults)], 1⟩ : SettingsCache)).1
      = .ok (1, { specDefaults with api_port := 9001 }) ∧
    (1 : Nat) ≠ 0 ∧
    (reload_settings [] [] [("API_PORT", "9001")]
       (⟨some (0, specDefaults), [(0, specDefaults)], 1⟩ : SettingsCache)).2.cache
      = some (1, { specDefaults with api_port := 9001 }) ∧
    heapGet (reload_settings [] [] [("API_PORT", "9001")]
       (⟨some (0, specDefaults), [(0, specDefaults)], 1⟩ : SettingsCache)).2 1
      = some { specDefaults with api_port := 9001 } ∧
    (∀ cde2 f2 l2, get_settings cde2 f2 l2
       (reload_settings [] [] [("API_PORT", "9001")]
         (⟨some (0, specDefaults), [(0, specDefaults)], 1⟩ : SettingsCache)).2
      = (.ok (1, { specDefaults with api_port := 9001 }),
         (reload_settings [] [] [("API_PORT", "9001")]
           (⟨some (0, specDefaults), [(0, specDefaults)], 1⟩ : SettingsCache)).2)) :=
  reload_settings_fresh [] [] [("API_PORT", "9001")]
    ⟨some (0, specDefaults), [(0, specDefaults)], 1⟩
    { specDefaults with api_port := 9001 } (0, specDefaults)
    (by rfl) rfl (by decide)

/-- C5: an input value that cannot be coerced to the field's declared type
(`"not_an_integer"` for `api_port`) makes construction fail with a
validation error, which propagates through both `get_settings()` and
`reload_settings()` instead of the field silently defaulting. -/
theorem invalid_port_fails :
    buildSettings [] [] [("API_PORT", "not_an_integer")]
      = .error (.validationError "api_port" "not_an_integer") ∧
    get_settings [] [] [("API_PORT", "not_an_integer")] initCache
      = (.error (.validationError "api_port" "not_an_integer"), initCache) ∧
    reload_settings [] [] [("API_PORT", "not_an_integer")] initCache
      = (.error (.validationError "api_port" "not_an_integer"), initCache) :=
  ⟨rfl, rfl, rfl⟩

/-- C6: an input key that does not correspond to a known `Settings` field
is silently ignored wherever it occurs (environment file, live
environment, or class-definition-time environment): construction gives
exactly the same result as without it.  In particular `UNKNOWN_FIELD=foo`
raises no error and changes nothing. -/
theorem unknown_keys_ignored :
    (∀ (k v : String) (classDefEnv file live : List (String × String)),
      toLowerStr k ∉ fieldNames →
      buildSettings ((k, v) :: classDefEnv) ((k, v) :: file) ((k, v) :: live)
        = buildSettings classDefEnv file live) ∧
    buildSettings [] [] [("UNKNOWN_FIELD", "foo")] = buildSettings [] [] [] := by
  constructor
  · intro k v classDefEnv file live h
    apply buildSettings_env_congr
    · intro n hn
      apply osGetenv_cons_of_ne
      rcases hn with rfl | rfl
      · intro he
        rw [he] at h
        exact h (by decide)
      · intro he
        rw [he] at h
        exact h (by decide)
    · intro key hk
      exact lookupCI_cons_of_ne _ _ _ _ (fun he => h (he ▸ hk))
    · intro key hk
      exact lookupCI_cons_of_ne _ _ _ _ (fun he => h (he ▸ hk))
  · rfl

/-- Witness for C6 at a concrete input: adding `UNKNOWN_FIELD=foo` to all
three input sources leaves construction unchanged. -/
theorem unknown_keys_ignored_witness :
    buildSettings [("UNKNOWN_FIELD", "foo")] [("UNKNOWN_FIELD", "foo")]
      [("UNKNOWN_FIELD", "foo")] = buildSettings [] [] [] :=
  unknown_keys_ignored.1 "UNKNOWN_FIELD" "foo" [] [] [] (by decide)

/-- C7: a field set only via the environment file (not in the live
environment) resolves to the file value, with input keys matched to
fields case-insensitively; concretely an uppercase `DATABASE_URL` file
entry reaches `database_url`. -/
theorem file_value_used_when_env_unset :
    (∀ (key dflt : String) (file live : List (String × String)) (v : String),
      lookupCI key live = none → lookupCI key file = some v →
      resolveStr key dflt file live = v) ∧
    (∀ (classDefEnv file live : List (String × String)) (s : Settings)
      (v : String),
      lookupCI "database_url" live = none →
      lookupCI "database_url" file = some v →
      buildSettings classDefEnv file live = .ok s → s.database_url = v) ∧
    ((buildSettings [] [("DATABASE_URL", "postgres://cfg")] []).map
      (fun s => s.database_url) = .ok "postgres://cfg") := by
  refine ⟨resolveStr_file, ?_, by rfl⟩
  intro classDefEnv file live s v hl hf hb
  have h := (buildSettings_ok_fields classDefEnv file live s hb).2.2.2.1
  rw [h]
  unfold res_database_url
  exact resolveStr_file _ _ _ _ _ hl hf

/-- Witness for C7 at a concrete input: a file-only `REDIS_URL` resolves
to the file value, and a file-only uppercase `DATABASE_URL` reaches the
constructed record. -/
theorem file_value_used_when_env_unset_witness :
    resolveStr "redis_url" "redis://localhost:6379/0"
      [("REDIS_URL", "redis://filehost:1/2")] [] = "redis://filehost:1/2" ∧
    ({ specDefaults with database_url := "postgres://cfg" } : Settings).database_url
      = "postgres://cfg" :=
  ⟨file_value_used_when_env_unset.1 "redis_url" "redis://localhost:6379/0"
      [("REDIS_URL", "redis://filehost:1/2")] [] "redis://filehost:1/2"
      (by rfl) (by rfl),
   file_value_used_when_env_unset.2.1 [] [("DATABASE_URL", "postgres://cfg")] []
      { specDefaults with database_url := "postgres://cfg" } "postgres://cfg"
      (by rfl) (by rfl) (by rfl)⟩

/-- C8: `openai_api_key` and `openai_base_url` default to the values of
`OPENAI_API_KEY` / `OPENAI_BASE_URL` read from the process environment at
class-definition time (empty string when unset), and they do so for every
environment file; no other field depends on the class-definition-time
environment. -/
theorem openai_from_class_def_env :
    (∀ (classDefEnv file live : List (String × String)) (s : Settings),
      lookupCI "openai_api_key" live = none →
      lookupCI "openai_api_key" file = none →
      lookupCI "openai_base_url" live = none →
      lookupCI "openai_base_url" file = none →
      buildSettings classDefEnv file live = .ok s →
      s.openai_api_key = osGetenv classDefEnv "OPENAI_API_KEY" "" ∧
      s.openai_base_url = osGetenv classDefEnv "OPENAI_BASE_URL" "") ∧
    (∀ (file live : List (String × String)) (s : Settings),
      lookupCI "openai_api_key" live = none →
      lookupCI "openai_api_key" file = none →
      lookupCI "openai_base_url" live = none →
      lookupCI "openai_base_url" file = none →
      buildSettings [] file live = .ok s →
      s.openai_api_key = "" ∧ s.openai_base_url = "") ∧
    (∀ (classDefEnv classDefEnv' file live : List (String × String)),
      (buildSettings classDefEnv file live).map nonOpenaiView
        = (buildSettings classDefEnv' file live).map nonOpenaiView) := by
  have main : ∀ (classDefEnv file live : List (String × String)) (s : Settings),
      lookupCI "openai_api_key" live = none →
      lookupCI "openai_api_key" file = none →
      lookupCI "openai_base_url" live = none →
      lookupCI "openai_base_url" file = none →
      buildSettings classDefEnv file live = .ok s →
      s.openai_api_key = osGetenv classDefEnv "OPENAI_API_KEY" "" ∧
      s.openai_base_url = osGetenv classDefEnv "OPENAI_BASE_URL" "" := by
    intro classDefEnv file live s hl1 hf1 hl2 hf2 hb
    have h := buildSettings_ok_fields classDefEnv file live s hb
    constructor
    · rw [h.2.2.2.2.2.1]
      unfold res_openai_api_key
      exact resolveStr_default _ _ _ _ hl1 hf1
    · rw [h.2.2.2.2.2.2.1]
      unfold res_openai_base_url
      exact resolveStr_default _ _ _ _ hl2 hf2
  refine ⟨main, ?_, ?_⟩
  · intro file live s hl1 hf1 hl2 hf2 hb
    exact main [] file live s hl1 hf1 hl2 hf2 hb
  · intro classDefEnv classDefEnv' file live
    unfold buildSettings
    cases res_api_port file live <;> cases res_cors_origins file live <;>
      cases res_max_frequency_per_hour file live <;>
      cases res_cooldown_minutes file live <;> cases res_dnd_hours file live <;>
      cases res_structured_logging file live <;>
      simp [Except.map, nonOpenaiView]

/-- Witness for C8 at a concrete input: with `OPENAI_API_KEY` and
`OPENAI_BASE_URL` set at class-definition time and an environment file
present that does not mention them, both fields resolve to the
class-definition-time values. -/
theorem openai_from_class_def_env_witness :
    ({ specDefaults with
        database_url := "x"
        openai_api_key := "sk-live"
        openai_base_url := "https://alt" } : Settings).openai_api_key
      = osGetenv [("OPENAI_API_KEY", "sk-live"), ("OPENAI_BASE_URL", "https://alt")]
          "OPENAI_API_KEY" "" ∧
    ({ specDefaults with
        database_url := "x"
        openai_api_key := "sk-live"
        openai_base_url := "https://alt" } : Settings).openai_base_url
      = osGetenv [("OPENAI_API_KEY", "sk-live"), ("OPENAI_BASE_URL", "https://alt")]
          "OPENAI_BASE_URL" "" :=
  openai_from_class_def_env.1
    [("OPENAI_API_KEY", "sk-live"), ("OPENAI_BASE_URL", "https://alt")]
    [("DATABASE_URL", "x")] []
    { specDefaults with
      database_url := "x"
      openai_api_key := "sk-live"
      openai_base_url := "https://alt" }
    (by rfl) (by rfl) (by rfl) (by rfl) (by rfl)

/-- C9: constructed instances are never mutated: neither `get_settings`
nor `reload_settings` changes the value recorded for any existing
instance, and a reload hands out a freshly allocated instance rather than
altering an old one. -/
theorem settings_instances_immutable (cde f l : List (String × String))
    (st : SettingsCache) (i : Nat) (h : i < st.nextId) :
    heapGet (get_settings cde f l st).2 i = heapGet st i ∧
    heapGet (reload_settings cde f l st).2 i = heapGet st i ∧
    (∀ j v, (reload_settings cde f l st).1 = .ok (j, v) → j = st.nextId) := by
  refine ⟨?_, ?_, ?_⟩
  · unfold get_settings
    cases hc : st.cache with
    | some inst => rfl
    | none =>
      cases hb : buildSettings cde f l with
      | ok s =>
        exact heapGet_cons_of_ne _ st.cache _ _ st.nextId _ _ _ (Nat.ne_of_gt h)
      | error e => rfl
  · unfold reload_settings
    cases hb : buildSettings cde f l with
    | ok s =>
      exact heapGet_cons_of_ne _ st.cache _ _ st.nextId _ _ _ (Nat.ne_of_gt h)
    | error e => rfl
  · unfold reload_settings
    cases hb : buildSettings cde f l with
    | ok s =>
      intro j v hj
      have := (Prod.mk.injEq _ _ _ _).mp ((Except.ok.injEq _ _).mp hj)
      exact this.1.symm
    | error e =>
      intro j v hj
      cases hj

/-- Witness for C9 at a concrete input: with one default instance cached,
neither operation changes what instance 0 holds, and a reload allocates
identity 1. -/
theorem settings_instances_immutable_witness :
    heapGet (get_settings [] [] [("API_PORT", "9001")]
      (⟨some (0, specDefaults), [(0, specDefaults)], 1⟩ : SettingsCache)).2 0
      = heapGet (⟨some (0, specDefaults), [(0, specDefaults)], 1⟩ : SettingsCache) 0 ∧
    heapGet (reload_settings [] [] [("API_PORT", "9001")]
      (⟨some (0, specDefaults), [(0, specDefaults)], 1⟩ : SettingsCache)).2 0
      = heapGet (⟨some (0, specDefaults), [(0, specDefaults)], 1⟩ : SettingsCache) 0 ∧
    (∀ j v, (reload_settings [] [] [("API_PORT", "9001")]
      (⟨some (0, specDefaults), [(0, specDefaults)], 1⟩ : SettingsCache)).1
        = .ok (j, v) → j = 1) :=
  settings_instances_immutable [] [] [("API_PORT", "9001")]
    ⟨some (0, specDefaults), [(0, specDefaults)], 1⟩ 0 (by decide)

/-- C10: a failing construction is atomic with respect to the cache: a
failing `reload_settings()` leaves the previously cached instance in
place (so a later `get_settings()` still returns it), and a failing first
`get_settings()` leaves the cache empty so a later call re-attempts
construction; no partially constructed value is ever cached. -/
theorem construction_error_atomic (cde f l : List (String × String))
    (st : SettingsCache) (e : ConfigValidationError)
    (hb : buildSettings cde f l = .error e) :
    reload_settings cde f l st = (.error e, st) ∧
    (st.cache = none → get_settings cde f l st = (.error e, st)) ∧
    (∀ inst, st.cache = some inst →
      ∀ cde2 f2 l2, get_settings cde2 f2 l2 st = (.ok inst, st)) ∧
    (st.cache = none → ∀ cde2 f2 l2 v, buildSettings cde2 f2 l2 = .ok v →
      (get_settings cde2 f2 l2 st).1 = .ok (st.nextId, v)) := by
  refine ⟨?_, ?_, ?_, ?_⟩
  · unfold reload_settings
    rw [hb]
  · intro hc
    unfold get_settings
    rw [hc, hb]
  · intro inst hc cde2 f2 l2
    unfold get_settings
    rw [hc]
  · intro hc cde2 f2 l2 v hb2
    unfold get_settings
    rw [hc, hb2]

/-- Witness for C10 at a concrete input: with `API_PORT=not_an_integer`,
reload and first-load both fail and leave the empty cache untouched, and
a later call with `API_PORT=9001` constructs instance 0. -/
theorem construction_error_atomic_witness :
    reload_settings [] [] [("API_PORT", "not_an_integer")] initCache
      = (.error (.validationError "api_port" "not_an_integer"), initCache) ∧
    (initCache.cache = none →
      get_settings [] [] [("API_PORT", "not_an_integer")] initCache
        = (.error (.validationError "api_port" "not_an_integer"), initCache)) ∧
    (∀ inst, initCache.cache = some inst →
      ∀ cde2 f2 l2, get_settings cde2 f2 l2 initCache = (.ok inst, initCache)) ∧
    (initCache.cache = none → ∀ cde2 f2 l2 v, buildSettings cde2 f2 l2 = .ok v →
      (get_settings cde2 f2 l2 initCache).1 = .ok (0, v)) :=
  construction_error_atomic [] [] [("API_PORT", "not_an_integer")] initCache
    (.validationError "api_port" "not_an_integer") (by rfl)

end ShinwaAgent
